import Mathlib

/-!
# Verification of the Game-of-Life compute core (`src/conway.cpp`)

This file embeds the simulation core of the repository's single source file
`src/conway.cpp` (a double-buffered, GPU-computed Conway's Game of Life on a
2000 x 2000 toroidal grid of `r8` texels) as Lean definitions, and proves the
spec's claims about it.

Modelling conventions:
* an `r8` texel holds a byte `0 .. 255`; `imageLoad(...).r` yields `b / 255`
  as a float, so the shader's threshold `r > 0.5` on a byte `b` is exactly
  `127 < b`; the shader's stores `1.0` / `0.0` land as bytes `255` / `0`;
* a texture's contents are a total function `Nat → Nat → Nat` of which only
  the texels `x < WIDTH`, `y < HEIGHT` exist on the device;
* GLSL `ivec` arithmetic is embedded as `Int` arithmetic; the shader's index
  computation `(pos + ivec2(dx,dy) + size) % size` acts on nonnegative values
  whenever `pos` is in range, so `Int.emod` matches it exactly;
* the C library's `rand()` is modelled as a stream parameter `r : Nat → Nat`
  (`r i` is the value of the `i`-th call), and a memory-visibility state
  machine models the documented effect of the dispatch/barrier calls.
-/

/-! ## Definitions -/

/-- `#define WIDTH 2000` (conway.cpp line 6). -/
def WIDTH : Nat := 2000

/-- `#define HEIGHT 2000` (conway.cpp line 7). -/
def HEIGHT : Nat := 2000

/-- The shader's aliveness test on a texel byte: `imageLoad(...).r > 0.5`
reads the byte `v` back as `v / 255`, and `v / 255 > 0.5 ↔ 127 < v`
(conway.cpp lines 24, 30, 34). -/
def isAlive (v : Nat) : Bool := 127 < v

/-- Byte stored by `imageStore(nextGrid, pos, vec4(1.0, ...))`. -/
def ALIVE : Nat := 255

/-- Byte stored by `imageStore(nextGrid, pos, vec4(0.0, ...))`. -/
def DEAD : Nat := 0

/-- The shader's wrapped neighbor coordinate on one axis:
`(pos + d + size) % size` (conway.cpp line 29), with GLSL `int` arithmetic
embedded as `Int` and the result converted back to a texel index. -/
def wrapCoord (p : Nat) (d : Int) (size : Nat) : Nat :=
  (((p : Int) + d + (size : Int)) % (size : Int)).toNat

/-- The eight `(dx, dy)` offsets visited by the shader's double loop
`for dy in -1..1, for dx in -1..1, skipping (0,0)` (conway.cpp lines 26-28),
in loop order. -/
def neighborOffsets : List (Int × Int) :=
  [(-1, -1), (0, -1), (1, -1), (-1, 0), (1, 0), (-1, 1), (0, 1), (1, 1)]

/-- The shader's live-neighbor count of cell `(x, y)` of grid `g`:
the loop accumulates `imageLoad(currentGrid, neighborPos).r > 0.5 ? 1 : 0`
over the eight offsets (conway.cpp lines 25-32). -/
def liveNeighbors (W H : Nat) (g : Nat → Nat → Nat) (x y : Nat) : Nat :=
  neighborOffsets.foldl
    (fun acc d =>
      acc + if isAlive (g (wrapCoord x d.1 W) (wrapCoord y d.2 H)) then 1 else 0)
    0

/-- The rule applied to the current byte and the live-neighbor count
(conway.cpp lines 33-38): an alive cell stays alive iff the count is 2 or 3,
a dead cell becomes alive iff the count is 3. -/
def nextState (current n : Nat) : Nat :=
  if isAlive current then
    (if n = 2 ∨ n = 3 then ALIVE else DEAD)
  else
    (if n = 3 then ALIVE else DEAD)

/-- One invocation of the compute shader body at cell `(x, y)`
(conway.cpp lines 20-40): read the cell, count its live neighbors, store the
next state. -/
def stepCell (W H : Nat) (g : Nat → Nat → Nat) (x y : Nat) : Nat :=
  nextState (g x y) (liveNeighbors W H g x y)

/-- The whole next generation as a grid. -/
def stepGrid (W H : Nat) (g : Nat → Nat → Nat) : Nat → Nat → Nat :=
  fun x y => stepCell W H g x y

/-- Two grids agree on every texel that exists on a `W x H` texture. -/
def gridEq (W H : Nat) (g g' : Nat → Nat → Nat) : Prop :=
  ∀ x, x < W → ∀ y, y < H → g x y = g' x y

/-- A horizontal blinker anchored at `(x0, y0)`: the three cells
`(x0, y0)`, `(x0+1, y0)`, `(x0+2, y0)` (toroidally) are `ALIVE`, every other
cell of the `WIDTH x HEIGHT` grid is `DEAD`. -/
def blinkerH (x0 y0 : Nat) : Nat → Nat → Nat := fun x y =>
  if (x % WIDTH = x0 % WIDTH ∨ x % WIDTH = (x0 + 1) % WIDTH ∨ x % WIDTH = (x0 + 2) % WIDTH)
      ∧ y % HEIGHT = y0 % HEIGHT then ALIVE else DEAD

/-- A vertical blinker anchored at `(x1, y1)`: the three cells
`(x1, y1)`, `(x1, y1+1)`, `(x1, y1+2)` (toroidally) are `ALIVE`, every other
cell is `DEAD`. -/
def blinkerV (x1 y1 : Nat) : Nat → Nat → Nat := fun x y =>
  if x % WIDTH = x1 % WIDTH
      ∧ (y % HEIGHT = y1 % HEIGHT ∨ y % HEIGHT = (y1 + 1) % HEIGHT ∨ y % HEIGHT = (y1 + 2) % HEIGHT)
      then ALIVE else DEAD

/-- A 2x2 block anchored at `(x0, y0)`: the four cells `(x0..x0+1, y0..y0+1)`
(toroidally) are `ALIVE`, every other cell is `DEAD`. -/
def block (x0 y0 : Nat) : Nat → Nat → Nat := fun x y =>
  if (x % WIDTH = x0 % WIDTH ∨ x % WIDTH = (x0 + 1) % WIDTH)
      ∧ (y % HEIGHT = y0 % HEIGHT ∨ y % HEIGHT = (y0 + 1) % HEIGHT) then ALIVE else DEAD

/-- `(WIDTH + 15) / 16`: work groups dispatched on the x axis, 16 invocations
wide (conway.cpp lines 17, 187). -/
def numGroupsX : Nat := (WIDTH + 15) / 16

/-- `(HEIGHT + 15) / 16`: work groups dispatched on the y axis (line 188). -/
def numGroupsY : Nat := (HEIGHT + 15) / 16

/-- Cell `(x, y)` is written by a successful dispatch iff some invocation has
that global id (it lies inside the dispatched groups) and it passes the
shader's bounds guard `pos.x >= size.x || pos.y >= size.y` (line 23). -/
def dispatchWrites (x y : Nat) : Prop :=
  x < 16 * numGroupsX ∧ y < 16 * numGroupsY ∧ x < WIDTH ∧ y < HEIGHT

instance (x y : Nat) : Decidable (dispatchWrites x y) := by
  unfold dispatchWrites; infer_instance

/-- The simulation state of `class GridVisualizer`: the contents of the two
textures (`glGenTextures(2, textures)`, line 130; `textures i` is the grid
held by texture slot `i`) and `currentTextureIdx` (line 13, set to 0 at
line 141). -/
structure GridVisualizer where
  textures : Nat → Nat → Nat → Nat
  currentTextureIdx : Nat

/-- The readable (authoritative) grid: `textures[currentTextureIdx]`, bound
read-only at line 184 and sampled by the draw at line 214. -/
def currentTexture (v : GridVisualizer) : Nat → Nat → Nat :=
  v.textures v.currentTextureIdx

/-- The writable (scratch) grid: `textures[1 - currentTextureIdx]`, bound
write-only at line 185. -/
def writableTexture (v : GridVisualizer) : Nat → Nat → Nat :=
  v.textures (1 - v.currentTextureIdx)

/-- The buffer swap `currentTextureIdx = 1 - currentTextureIdx` (line 198):
an index flip; both textures' contents are untouched. -/
def swap (v : GridVisualizer) : GridVisualizer :=
  { v with currentTextureIdx := 1 - v.currentTextureIdx }

/-- One call of `computeStep()` (conway.cpp lines 182-199): bind the current
texture for reading and the other for writing, dispatch the kernel — when the
dispatch succeeds it stores the next generation into every dispatched
in-bounds cell of the writable texture, when it fails (`glGetError` reports an
error, which is only logged) it stores nothing — then the barrier runs and the
index flip happens unconditionally. -/
def computeStep (dispatchOk : Bool) (v : GridVisualizer) : GridVisualizer :=
  swap (if dispatchOk then
    { v with
        textures := fun i =>
          if i = 1 - v.currentTextureIdx then
            fun x y =>
              if dispatchWrites x y then
                stepCell WIDTH HEIGHT (v.textures v.currentTextureIdx) x y
              else v.textures (1 - v.currentTextureIdx) x y
          else v.textures i }
  else v)

/-- The diagnostics printed by `computeStep()` (lines 191-195): an error line
on a failed dispatch, nothing otherwise. -/
def computeStepDiagnostics (dispatchOk : Bool) : List String :=
  if dispatchOk then [] else ["Error after glDispatchCompute"]

/-- The backend calls one frame of the main loop makes, in program order. -/
inductive GLCall where
  | dispatchCompute
  | memoryBarrier
  | flipCurrentIndex
  | drawArrays
  | presentFrame
deriving DecidableEq

/-- The call order inside `computeStep()`: `glDispatchCompute` (line 189),
`glMemoryBarrier` (line 197), the index flip (line 198). -/
def computeStepCalls : List GLCall :=
  [GLCall.dispatchCompute, GLCall.memoryBarrier, GLCall.flipCurrentIndex]

/-- The call order inside `renderFrame()`: `glDrawArrays` (line 228), then
`glfwSwapBuffers` (line 246). -/
def renderFrameCalls : List GLCall :=
  [GLCall.drawArrays, GLCall.presentFrame]

/-- One iteration of the main loop (lines 270-273): `computeStep()` then
`renderFrame()`. -/
def frameCalls : List GLCall := computeStepCalls ++ renderFrameCalls

/-- Device write visibility: a dispatch leaves its image writes pending (not
yet guaranteed visible); the memory barrier makes every pending write visible;
no other call changes visibility. -/
def pendingAfter (p : Bool) : GLCall → Bool
  | GLCall.dispatchCompute => true
  | GLCall.memoryBarrier => false
  | _ => p

/-- Whether a trace, started with `p` telling if writes are pending, ever
reaches a buffer flip or a draw while writes are pending — i.e. whether any
consumer could observe a partially-written generation. -/
def observesPending : Bool → List GLCall → Bool
  | _, [] => false
  | p, c :: rest =>
      ((c == GLCall.flipCurrentIndex || c == GLCall.drawArrays) && p)
        || observesPending (pendingAfter p c) rest

/-- Whether writes are still pending after a whole trace. -/
def pendingAtEnd (p : Bool) (l : List GLCall) : Bool := l.foldl pendingAfter p

/-- `initializeGrid()` (conway.cpp lines 158-169): fill a row-major buffer
with `rand() % 2 ? 255 : 0` and upload it to texture 0; `r i` models the
value returned by the `i`-th `rand()` call, and texel `(x, y)` receives
buffer entry `y * WIDTH + x`. -/
def initializeGrid (r : Nat → Nat) : Nat → Nat → Nat :=
  fun x y => if r (y * WIDTH + x) % 2 ≠ 0 then ALIVE else DEAD

/-- The visualizer state right after the constructor and `initializeGrid()`:
texture 0 holds the seeded grid, `currentTextureIdx` is 0 (so texture 0 is
the designated current grid), and texture 1 — allocated with no data at
line 133 — holds arbitrary contents `junk`. -/
def initialVisualizer (r : Nat → Nat) (junk : Nat → Nat → Nat) : GridVisualizer :=
  { textures := fun i => if i = 0 then initializeGrid r else junk
    currentTextureIdx := 0 }

/-- Follows the spec's words (section 4.1): `initialize(width, height,
density)` fills each cell with an independent Bernoulli(density) sample
mapped to ALIVE/DEAD.  A stream `s` of samples in `[0, 1)` realizes the
draws: cell `i` is ALIVE iff `s i < density`.  This definition exists to be
compared with `initializeGrid`, the translation of the code; it is not
itself a translation of any code. -/
def specInitialize (density : ℚ) (s : Nat → ℚ) : Nat → Nat → Nat :=
  fun x y => if s (y * WIDTH + x) < density then ALIVE else DEAD

/-- One run of the program's startup (`main`, conway.cpp lines 266-268):
construct the visualizer and call `initializeGrid()`.  The program contains
no `srand` call, so by the C standard `rand()` behaves as if `srand(1)` had
been called first; `randFromSeed s i` models the `i`-th `rand()` value after
seeding with `s`, and the run's entropy source (time, pid, ...) is never
consulted. -/
def programInitialGrid (randFromSeed : Nat → Nat → Nat) (_entropy : Nat) :
    Nat → Nat → Nat :=
  initializeGrid (randFromSeed 1)

/-- A concrete visualizer state used to exhibit the effect of a failed
dispatch: texture 0 (the current one) is all ALIVE, texture 1 all DEAD. -/
def vizStuck : GridVisualizer :=
  { textures := fun i => fun _ _ => if i = 0 then ALIVE else DEAD
    currentTextureIdx := 0 }

/-! ## Basic lemmas about the shader arithmetic -/

theorem liveNeighbors_unfold (W H : Nat) (g : Nat → Nat → Nat) (x y : Nat) :
    liveNeighbors W H g x y =
      (((((((((if isAlive (g (wrapCoord x (-1) W) (wrapCoord y (-1) H)) then 1 else 0)
        + if isAlive (g (wrapCoord x 0 W) (wrapCoord y (-1) H)) then 1 else 0)
        + if isAlive (g (wrapCoord x 1 W) (wrapCoord y (-1) H)) then 1 else 0)
        + if isAlive (g (wrapCoord x (-1) W) (wrapCoord y 0 H)) then 1 else 0)
        + if isAlive (g (wrapCoord x 1 W) (wrapCoord y 0 H)) then 1 else 0)
        + if isAlive (g (wrapCoord x (-1) W) (wrapCoord y 1 H)) then 1 else 0)
        + if isAlive (g (wrapCoord x 0 W) (wrapCoord y 1 H)) then 1 else 0)
        + if isAlive (g (wrapCoord x 1 W) (wrapCoord y 1 H)) then 1 else 0)) := by
  simp [liveNeighbors, neighborOffsets]

theorem foldl_count_filter {α : Type} (p : α → Bool) :
    ∀ (l : List α) (n : Nat),
      l.foldl (fun acc d => acc + if p d then 1 else 0) n = n + (l.filter p).length := by
  intro l
  induction l with
  | nil => intro n; simp
  | cons a l ih =>
      intro n
      by_cases h : p a <;> simp [List.filter, h, ih, Nat.add_assoc, Nat.add_comm 1]

theorem wrapCoord_lt (p : Nat) (d : Int) (size : Nat) (hsz : 0 < size) :
    wrapCoord p d size < size := by
  unfold wrapCoord
  have h0 : (0 : Int) < (size : Int) := by exact_mod_cast hsz
  have := Int.emod_lt_of_pos ((p : Int) + d + (size : Int)) h0
  omega

theorem isAlive_ite (c : Prop) [Decidable c] :
    isAlive (if c then ALIVE else DEAD) = decide c := by
  by_cases h : c <;> simp [h, isAlive, ALIVE, DEAD]

/-! ## Wrapped-coordinate arithmetic at the program's fixed `2000 x 2000` size

The program only ever runs the shader on `WIDTH x HEIGHT = 2000 x 2000`
textures, so the pattern lemmas below are stated at that size.  The `rel*`
lemmas translate each wrapped-coordinate comparison into an equation on the
relative coordinate `u = (x - z) mod 2000`, which makes the final per-cell
case analysis linear. -/

theorem wrapCoord_m1_2000 (p : Nat) : wrapCoord p (-1) 2000 = (p + 1999) % 2000 := by
  unfold wrapCoord; omega

theorem wrapCoord_0_2000 (p : Nat) : wrapCoord p 0 2000 = p % 2000 := by
  unfold wrapCoord; omega

theorem wrapCoord_p1_2000 (p : Nat) : wrapCoord p 1 2000 = (p + 1) % 2000 := by
  unfold wrapCoord; omega

theorem mod_mod_2000 (a : Nat) : a % 2000 % 2000 = a % 2000 := by omega

theorem rel00 (x z u : Nat) (hu : u = (x + 2000 - z % 2000) % 2000) :
    (x % 2000 = z % 2000) ↔ u = 0 := by omega

theorem rel01 (x z u : Nat) (hu : u = (x + 2000 - z % 2000) % 2000) :
    (x % 2000 = (z + 1) % 2000) ↔ u = 1 := by omega

theorem rel02 (x z u : Nat) (hu : u = (x + 2000 - z % 2000) % 2000) :
    (x % 2000 = (z + 2) % 2000) ↔ u = 2 := by omega

theorem rel10 (x z u : Nat) (hu : u = (x + 2000 - z % 2000) % 2000) :
    ((x + 1) % 2000 = z % 2000) ↔ u = 1999 := by omega

theorem rel11 (x z u : Nat) (hu : u = (x + 2000 - z % 2000) % 2000) :
    ((x + 1) % 2000 = (z + 1) % 2000) ↔ u = 0 := by omega

theorem rel12 (x z u : Nat) (hu : u = (x + 2000 - z % 2000) % 2000) :
    ((x + 1) % 2000 = (z + 2) % 2000) ↔ u = 1 := by omega

theorem relm0 (x z u : Nat) (hu : u = (x + 2000 - z % 2000) % 2000) :
    ((x + 1999) % 2000 = z % 2000) ↔ u = 1 := by omega

theorem relm1 (x z u : Nat) (hu : u = (x + 2000 - z % 2000) % 2000) :
    ((x + 1999) % 2000 = (z + 1) % 2000) ↔ u = 2 := by omega

theorem relm2 (x z u : Nat) (hu : u = (x + 2000 - z % 2000) % 2000) :
    ((x + 1999) % 2000 = (z + 2) % 2000) ↔ u = 3 := by omega

theorem relva (y z v : Nat) (hv : v = (y + 2000 - z % 2000) % 2000) :
    (y % 2000 = (z + 1999) % 2000) ↔ v = 1999 := by omega

theorem relvb (y z v : Nat) (hv : v = (y + 2000 - z % 2000) % 2000) :
    (y % 2000 = (z + 1999 + 1) % 2000) ↔ v = 0 := by omega

theorem relvc (y z v : Nat) (hv : v = (y + 2000 - z % 2000) % 2000) :
    (y % 2000 = (z + 1999 + 2) % 2000) ↔ v = 1 := by omega

/-- Stepping reads the grid only at in-range texels, so two grids that agree
in range step identically. -/
theorem stepCell_congr {g g' : Nat → Nat → Nat} (W H : Nat)
    (hW : 0 < W) (hH : 0 < H) (hg : gridEq W H g g') :
    ∀ x, x < W → ∀ y, y < H → stepCell W H g x y = stepCell W H g' x y := by
  intro x hx y hy
  unfold stepCell
  rw [hg x hx y hy, liveNeighbors_unfold, liveNeighbors_unfold,
    hg _ (wrapCoord_lt x (-1) W hW) _ (wrapCoord_lt y (-1) H hH),
    hg _ (wrapCoord_lt x 0 W hW) _ (wrapCoord_lt y (-1) H hH),
    hg _ (wrapCoord_lt x 1 W hW) _ (wrapCoord_lt y (-1) H hH),
    hg _ (wrapCoord_lt x (-1) W hW) _ (wrapCoord_lt y 0 H hH),
    hg _ (wrapCoord_lt x 1 W hW) _ (wrapCoord_lt y 0 H hH),
    hg _ (wrapCoord_lt x (-1) W hW) _ (wrapCoord_lt y 1 H hH),
    hg _ (wrapCoord_lt x 0 W hW) _ (wrapCoord_lt y 1 H hH),
    hg _ (wrapCoord_lt x 1 W hW) _ (wrapCoord_lt y 1 H hH)]

set_option maxHeartbeats 1000000 in
/-- One step turns a horizontal blinker into the vertical blinker through its
center cell `(x0+1, y0)`, i.e. the vertical triple anchored at
`(x0+1, y0-1)`; `y0 + 1999` is `y0 - 1` on the 2000-torus. -/
theorem step_blinkerH (x0 y0 : Nat) :
    gridEq WIDTH HEIGHT (stepGrid WIDTH HEIGHT (blinkerH x0 y0))
      (blinkerV (x0 + 1) (y0 + 1999)) := by
  intro x hx y hy
  simp only [WIDTH, HEIGHT] at hx hy
  unfold stepGrid stepCell
  rw [liveNeighbors_unfold]
  simp only [blinkerH, blinkerV, nextState, WIDTH, HEIGHT, isAlive_ite, decide_eq_true_eq,
    wrapCoord_m1_2000, wrapCoord_0_2000, wrapCoord_p1_2000, mod_mod_2000]
  obtain ⟨u, hu⟩ : ∃ u, u = (x + 2000 - x0 % 2000) % 2000 := ⟨_, rfl⟩
  obtain ⟨v, hv⟩ : ∃ v, v = (y + 2000 - y0 % 2000) % 2000 := ⟨_, rfl⟩
  have hub : u < 2000 := by omega
  have hvb : v < 2000 := by omega
  simp only [rel00 x x0 u hu, rel01 x x0 u hu, rel02 x x0 u hu,
    rel10 x x0 u hu, rel11 x x0 u hu, rel12 x x0 u hu,
    relm0 x x0 u hu, relm1 x x0 u hu, relm2 x x0 u hu,
    rel00 y y0 v hv, rel10 y y0 v hv, relm0 y y0 v hv,
    relva y y0 v hv, relvb y y0 v hv, relvc y y0 v hv]
  clear hu hv hx hy
  split_ifs <;> omega

set_option maxHeartbeats 1000000 in
/-- One step turns a vertical blinker into the horizontal blinker through its
center cell `(x1, y1+1)`, i.e. the horizontal triple anchored at
`(x1-1, y1+1)`; `x1 + 1999` is `x1 - 1` on the 2000-torus. -/
theorem step_blinkerV (x1 y1 : Nat) :
    gridEq WIDTH HEIGHT (stepGrid WIDTH HEIGHT (blinkerV x1 y1))
      (blinkerH (x1 + 1999) (y1 + 1)) := by
  intro x hx y hy
  simp only [WIDTH, HEIGHT] at hx hy
  unfold stepGrid stepCell
  rw [liveNeighbors_unfold]
  simp only [blinkerH, blinkerV, nextState, WIDTH, HEIGHT, isAlive_ite, decide_eq_true_eq,
    wrapCoord_m1_2000, wrapCoord_0_2000, wrapCoord_p1_2000, mod_mod_2000]
  obtain ⟨u, hu⟩ : ∃ u, u = (x + 2000 - x1 % 2000) % 2000 := ⟨_, rfl⟩
  obtain ⟨v, hv⟩ : ∃ v, v = (y + 2000 - y1 % 2000) % 2000 := ⟨_, rfl⟩
  have hub : u < 2000 := by omega
  have hvb : v < 2000 := by omega
  simp only [rel00 x x1 u hu, rel10 x x1 u hu, relm0 x x1 u hu,
    relva x x1 u hu, relvb x x1 u hu, relvc x x1 u hu,
    rel00 y y1 v hv, rel01 y y1 v hv, rel02 y y1 v hv,
    rel10 y y1 v hv, rel11 y y1 v hv, rel12 y y1 v hv,
    relm0 y y1 v hv, relm1 y y1 v hv, relm2 y y1 v hv]
  clear hu hv hx hy
  split_ifs <;> omega

/-- Shifting a horizontal blinker's anchor by a full grid period (2000 on
each axis) names the same toroidal cells. -/
theorem blinkerH_shift (x0 y0 x y : Nat) :
    blinkerH (x0 + 1 + 1999) (y0 + 1999 + 1) x y = blinkerH x0 y0 x y := by
  simp only [blinkerH, WIDTH, HEIGHT, ALIVE, DEAD]
  split_ifs <;> omega

/-- Shifting a vertical blinker's anchor by a full grid period names the same
toroidal cells. -/
theorem blinkerV_shift (x1 y1 x y : Nat) :
    blinkerV (x1 + 1999 + 1) (y1 + 1 + 1999) x y = blinkerV x1 y1 x y := by
  simp only [blinkerV, WIDTH, HEIGHT, ALIVE, DEAD]
  split_ifs <;> omega

/-! ## Claim theorems -/

/-- C1: for every grid, every cell and every value of the live-neighbor
count `n` (which is always at most 8, hence covers exactly the counts 0-8):
the written state is the rule table's entry — an ALIVE cell stays ALIVE iff
`n ∈ {2, 3}`, a DEAD cell becomes ALIVE iff `n = 3`, and in every other case
the written state is DEAD. -/
theorem stepCell_rule (W H : Nat) (g : Nat → Nat → Nat) (x y : Nat) :
    liveNeighbors W H g x y ≤ 8
    ∧ stepCell W H g x y
        = (if isAlive (g x y) then
            (if liveNeighbors W H g x y = 2 ∨ liveNeighbors W H g x y = 3 then ALIVE else DEAD)
          else (if liveNeighbors W H g x y = 3 then ALIVE else DEAD))
    ∧ (isAlive (stepCell W H g x y) = true ↔
        ((isAlive (g x y) = true
            ∧ (liveNeighbors W H g x y = 2 ∨ liveNeighbors W H g x y = 3))
          ∨ (isAlive (g x y) = false ∧ liveNeighbors W H g x y = 3))) := by
  refine ⟨?_, rfl, ?_⟩
  · rw [liveNeighbors_unfold]
    split_ifs <;> omega
  · unfold stepCell nextState
    cases h : isAlive (g x y) <;> split_ifs <;> simp_all [isAlive, ALIVE, DEAD]

/-- C2: the live-neighbor count of `(x, y)` is taken over exactly the eight
wrapped positions `(x + dx, y + dy) mod (W, H)` with
`(dx, dy) ∈ {-1,0,1}^2 \ (0,0)`; in particular, with `x = y = 0` the
neighbor multiset includes `(W-1, H-1)`, `(W-1, 0)` and `(0, H-1)` — the
toroidal wraparound at the corner. -/
theorem liveNeighbors_neighborhood (W H : Nat) (g : Nat → Nat → Nat) (x y : Nat)
    (hW : 1 ≤ W) (hH : 1 ≤ H) :
    liveNeighbors W H g x y
      = ((neighborOffsets.map (fun d => (wrapCoord x d.1 W, wrapCoord y d.2 H))).filter
          (fun p => isAlive (g p.1 p.2))).length
    ∧ neighborOffsets.length = 8
    ∧ (∀ d : Int × Int, d ∈ neighborOffsets ↔
        ((d.1 = -1 ∨ d.1 = 0 ∨ d.1 = 1) ∧ (d.2 = -1 ∨ d.2 = 0 ∨ d.2 = 1) ∧ d ≠ (0, 0)))
    ∧ (W - 1, H - 1) ∈ (neighborOffsets.map (fun d => (wrapCoord 0 d.1 W, wrapCoord 0 d.2 H)))
    ∧ (W - 1, 0) ∈ (neighborOffsets.map (fun d => (wrapCoord 0 d.1 W, wrapCoord 0 d.2 H)))
    ∧ (0, H - 1) ∈ (neighborOffsets.map (fun d => (wrapCoord 0 d.1 W, wrapCoord 0 d.2 H))) := by
  have hm1W : wrapCoord 0 (-1) W = W - 1 := by
    unfold wrapCoord
    have e : (((0 : Nat) : Int) + -1 + (W : Int)) % (W : Int)
        = ((0 : Nat) : Int) + -1 + (W : Int) :=
      Int.emod_eq_of_lt (by omega) (by omega)
    omega
  have hm1H : wrapCoord 0 (-1) H = H - 1 := by
    unfold wrapCoord
    have e : (((0 : Nat) : Int) + -1 + (H : Int)) % (H : Int)
        = ((0 : Nat) : Int) + -1 + (H : Int) :=
      Int.emod_eq_of_lt (by omega) (by omega)
    omega
  have h0W : wrapCoord 0 0 W = 0 := by
    unfold wrapCoord
    have e : (((0 : Nat) : Int) + 0 + (W : Int)) % (W : Int) = 0 := by
      simp [Int.emod_self]
    omega
  have h0H : wrapCoord 0 0 H = 0 := by
    unfold wrapCoord
    have e : (((0 : Nat) : Int) + 0 + (H : Int)) % (H : Int) = 0 := by
      simp [Int.emod_self]
    omega
  refine ⟨?_, rfl, ?_, ?_, ?_, ?_⟩
  · rw [liveNeighbors,
      foldl_count_filter (fun d => isAlive (g (wrapCoord x d.1 W) (wrapCoord y d.2 H)))
        neighborOffsets 0]
    simp [List.filter_map, Function.comp_def]
  · intro d
    constructor
    · intro hd
      fin_cases hd <;> simp [neighborOffsets]
    · rcases d with ⟨a, b⟩
      rintro ⟨(rfl | rfl | rfl), (rfl | rfl | rfl), h3⟩ <;>
        simp_all [neighborOffsets]
  · exact List.mem_map.mpr ⟨(-1, -1), by simp [neighborOffsets], by simp [hm1W, hm1H]⟩
  · exact List.mem_map.mpr ⟨(-1, 0), by simp [neighborOffsets], by simp [hm1W, h0H]⟩
  · exact List.mem_map.mpr ⟨(0, -1), by simp [neighborOffsets], by simp [h0W, hm1H]⟩

/-- Witness for C2 at the concrete size `W = H = 5`, the all-DEAD grid and
the corner cell `(0, 0)`. -/
theorem liveNeighbors_neighborhood_witness :
    (1 : Nat) ≤ 5 ∧
    (liveNeighbors 5 5 (fun _ _ => 0) 0 0
      = ((neighborOffsets.map (fun d => (wrapCoord 0 d.1 5, wrapCoord 0 d.2 5))).filter
          (fun p => isAlive ((fun _ _ => (0 : Nat)) p.1 p.2))).length
    ∧ neighborOffsets.length = 8
    ∧ (∀ d : Int × Int, d ∈ neighborOffsets ↔
        ((d.1 = -1 ∨ d.1 = 0 ∨ d.1 = 1) ∧ (d.2 = -1 ∨ d.2 = 0 ∨ d.2 = 1) ∧ d ≠ (0, 0)))
    ∧ (4, 4) ∈ (neighborOffsets.map (fun d => (wrapCoord 0 d.1 5, wrapCoord 0 d.2 5)))
    ∧ (4, 0) ∈ (neighborOffsets.map (fun d => (wrapCoord 0 d.1 5, wrapCoord 0 d.2 5)))
    ∧ (0, 4) ∈ (neighborOffsets.map (fun d => (wrapCoord 0 d.1 5, wrapCoord 0 d.2 5)))) :=
  ⟨by decide, liveNeighbors_neighborhood 5 5 (fun _ _ => 0) 0 0 (by decide) (by decide)⟩

/-- C9: whatever bytes the input grids hold — including intermediate,
non-binary intensities — the state the shader writes is exactly ALIVE (255)
or DEAD (0), and it depends on the input only through the midpoint threshold
`isAlive`: two input grids with the same thresholding step to identical
cells.  So every step writes a binary grid regardless of the writable grid's
prior contents. -/
theorem stepCell_binary (W H : Nat) (g g' : Nat → Nat → Nat) (x y : Nat)
    (hthr : ∀ a b, isAlive (g a b) = isAlive (g' a b)) :
    (stepCell W H g x y = ALIVE ∨ stepCell W H g x y = DEAD)
    ∧ stepCell W H g x y = stepCell W H g' x y := by
  constructor
  · unfold stepCell nextState
    split_ifs <;> simp
  · simp only [stepCell, nextState, liveNeighbors_unfold, hthr]

/-- Witness for C9: the constant grid of byte 200 and the constant grid of
byte 255 threshold identically, and the step writes a binary value. -/
theorem stepCell_binary_witness :
    (∀ a b : Nat, isAlive ((fun _ _ => (200 : Nat)) a b)
        = isAlive ((fun _ _ => (255 : Nat)) a b))
    ∧ ((stepCell 5 5 (fun _ _ => 200) 0 0 = ALIVE ∨ stepCell 5 5 (fun _ _ => 200) 0 0 = DEAD)
        ∧ stepCell 5 5 (fun _ _ => 200) 0 0 = stepCell 5 5 (fun _ _ => 255) 0 0) :=
  ⟨fun _ _ => rfl, stepCell_binary 5 5 (fun _ _ => 200) (fun _ _ => 255) 0 0 (fun _ _ => rfl)⟩

/-- C4: a successful `computeStep()` stores, for every in-range cell, the
next generation computed from the current grid into the writable texture,
and after the final index flip the freshly-written texture is the one
`current()` returns while `writable()` returns the previously-current
texture; the swap itself only flips the index and moves no texel data; and
the index stays in `{0, 1}`. -/
theorem computeStep_success_spec (v : GridVisualizer) (h : v.currentTextureIdx ≤ 1) :
    (∀ x, x < WIDTH → ∀ y, y < HEIGHT →
        currentTexture (computeStep true v) x y
          = stepCell WIDTH HEIGHT (currentTexture v) x y)
    ∧ writableTexture (computeStep true v) = currentTexture v
    ∧ (∀ w : GridVisualizer, (swap w).textures = w.textures
        ∧ (swap w).currentTextureIdx = 1 - w.currentTextureIdx)
    ∧ (computeStep true v).currentTextureIdx ≤ 1 := by
  have hidx : v.currentTextureIdx = 0 ∨ v.currentTextureIdx = 1 := by omega
  refine ⟨?_, ?_, fun w => ⟨rfl, rfl⟩, ?_⟩
  · intro x hx y hy
    have hw : dispatchWrites x y := by
      unfold dispatchWrites numGroupsX numGroupsY WIDTH HEIGHT at *
      omega
    rcases hidx with h0 | h0 <;>
      simp [computeStep, swap, currentTexture, h0, hw]
  · rcases hidx with h0 | h0 <;>
      simp [computeStep, swap, currentTexture, writableTexture, h0]
  · rcases hidx with h0 | h0 <;>
      simp [computeStep, swap, h0]

/-- Witness for C4 on a concrete state: both textures all DEAD, index 0. -/
theorem computeStep_success_spec_witness :
    (GridVisualizer.mk (fun _ => fun _ _ => 0) 0).currentTextureIdx ≤ 1
    ∧ ((∀ x, x < WIDTH → ∀ y, y < HEIGHT →
          currentTexture (computeStep true (GridVisualizer.mk (fun _ => fun _ _ => 0) 0)) x y
            = stepCell WIDTH HEIGHT
                (currentTexture (GridVisualizer.mk (fun _ => fun _ _ => 0) 0)) x y)
      ∧ writableTexture (computeStep true (GridVisualizer.mk (fun _ => fun _ _ => 0) 0))
          = currentTexture (GridVisualizer.mk (fun _ => fun _ _ => 0) 0)
      ∧ (∀ w : GridVisualizer, (swap w).textures = w.textures
          ∧ (swap w).currentTextureIdx = 1 - w.currentTextureIdx)
      ∧ (computeStep true (GridVisualizer.mk (fun _ => fun _ _ => 0) 0)).currentTextureIdx ≤ 1) :=
  ⟨by decide, computeStep_success_spec (GridVisualizer.mk (fun _ => fun _ _ => 0) 0) (by decide)⟩

/-- C3 counterexample: after a failed dispatch the code still executes
`currentTextureIdx = 1 - currentTextureIdx` (line 198), so the step is not a
no-op on the grid state — which grid is current changes, and `current()`
afterwards returns the other (stale) texture's contents. -/
theorem computeStep_failure_counterexample :
    (computeStep false vizStuck).currentTextureIdx ≠ vizStuck.currentTextureIdx
    ∧ currentTexture (computeStep false vizStuck) 0 0 ≠ currentTexture vizStuck 0 0 := by
  constructor <;> decide

/-- C3 (amended): on a failed dispatch the error is logged as a diagnostic,
no texel is written (both textures' contents are unchanged) and the process
does not crash, but the buffer swap still happens: `currentTextureIdx`
flips, so `current()` subsequently returns the stale previously-writable
texture. -/
theorem computeStep_failure_spec (v : GridVisualizer) :
    (computeStep false v).textures = v.textures
    ∧ (computeStep false v).currentTextureIdx = 1 - v.currentTextureIdx
    ∧ computeStepDiagnostics false ≠ [] := by
  exact ⟨rfl, rfl, by decide⟩

/-- C5: the frame trace is dispatch, barrier, index flip, draw, present —
the memory barrier (line 197) is issued after the dispatch has processed all
cells and before the subsequent swap (line 198) and before the frame's draw.
Under the barrier's visibility semantics (a dispatch leaves its writes
pending until a barrier makes them visible), no flip or draw in a frame ever
happens with writes pending — whatever the pending state at frame entry —
and no writes are pending when the frame ends, so the draw never observes a
partially-written generation. -/
theorem frame_barrier_visibility :
    frameCalls = [GLCall.dispatchCompute, GLCall.memoryBarrier, GLCall.flipCurrentIndex,
        GLCall.drawArrays, GLCall.presentFrame]
    ∧ (∀ p : Bool, observesPending p frameCalls = false)
    ∧ (∀ p : Bool, pendingAtEnd p frameCalls = false) := by
  refine ⟨rfl, ?_, ?_⟩ <;> intro p <;> cases p <;> rfl

/-- C8 counterexample: the spec's configurable-density contract fails on the
code — `initializeGrid()` takes no density and maps any odd `rand()` value
to ALIVE, so with density 0 the spec model leaves every cell DEAD while the
code initializer makes cell `(0, 0)` ALIVE whenever `rand()` returns an odd
value (stream constantly 1 here). -/
theorem initializeGrid_density_counterexample :
    initializeGrid (fun _ => 1) 0 0 = ALIVE
    ∧ specInitialize 0 (fun _ => 0) 0 0 = DEAD := by
  constructor
  · decide
  · simp [specInitialize]

/-- C8 (amended): `initializeGrid()` fills every cell of the designated
current grid (texture 0; `currentTextureIdx` starts at 0) with ALIVE exactly
when the corresponding `rand()` value is odd, else DEAD — a fixed expected
density of 50%; width, height and density are compile-time constants, so the
density is not configurable. -/
theorem initializeGrid_spec (r : Nat → Nat) (junk : Nat → Nat → Nat) (x y : Nat) :
    currentTexture (initialVisualizer r junk) x y = initializeGrid r x y
    ∧ (initializeGrid r x y = ALIVE ∨ initializeGrid r x y = DEAD)
    ∧ (initializeGrid r x y = ALIVE ↔ r (y * WIDTH + x) % 2 = 1) := by
  refine ⟨rfl, ?_, ?_⟩
  · unfold initializeGrid
    split_ifs <;> simp
  · unfold initializeGrid
    split_ifs with hc <;> simp [ALIVE, DEAD] <;> omega

/-- C10: `srand` is never called anywhere in the program, so the `rand()`
stream is the fixed seed-1 stream of the C library and the startup never
consults any entropy source: two runs of the program (same fixed
`WIDTH x HEIGHT`) produce the identical initial grid. -/
theorem programInitialGrid_deterministic (randFromSeed : Nat → Nat → Nat) (e1 e2 : Nat) :
    programInitialGrid randFromSeed e1 = programInitialGrid randFromSeed e2
    ∧ programInitialGrid randFromSeed e1 = initializeGrid (randFromSeed 1) :=
  ⟨rfl, rfl⟩

set_option maxHeartbeats 1000000 in
/-- C7: a 2x2 block of ALIVE cells with all other cells DEAD is a fixed
point of the step function: one application of the per-cell rule over the
program's 2000x2000 toroidal grid reproduces the block exactly, for every
anchor position (on this grid a 2x2 block never wraps onto itself). -/
theorem block_still_life (x0 y0 : Nat) :
    gridEq WIDTH HEIGHT (stepGrid WIDTH HEIGHT (block x0 y0)) (block x0 y0) := by
  intro x hx y hy
  simp only [WIDTH, HEIGHT] at hx hy
  unfold stepGrid stepCell
  rw [liveNeighbors_unfold]
  simp only [block, nextState, WIDTH, HEIGHT, isAlive_ite, decide_eq_true_eq,
    wrapCoord_m1_2000, wrapCoord_0_2000, wrapCoord_p1_2000, mod_mod_2000]
  obtain ⟨u, hu⟩ : ∃ u, u = (x + 2000 - x0 % 2000) % 2000 := ⟨_, rfl⟩
  obtain ⟨v, hv⟩ : ∃ v, v = (y + 2000 - y0 % 2000) % 2000 := ⟨_, rfl⟩
  have hub : u < 2000 := by omega
  have hvb : v < 2000 := by omega
  simp only [rel00 x x0 u hu, rel01 x x0 u hu, rel10 x x0 u hu, rel11 x x0 u hu,
    relm0 x x0 u hu, relm1 x x0 u hu,
    rel00 y y0 v hv, rel01 y y0 v hv, rel10 y y0 v hv, rel11 y y0 v hv,
    relm0 y y0 v hv, relm1 y y0 v hv]
  clear hu hv hx hy
  split_ifs <;> omega

/-- C6: a blinker (three ALIVE cells in a row, all other cells DEAD) returns
to its original configuration after exactly 2 steps, at every position on
the program's 2000x2000 toroidal grid, in both orientations; and the grid
after 1 step differs from the original, so the period is exactly 2. -/
theorem blinker_period_two (x0 y0 : Nat) :
    gridEq WIDTH HEIGHT
        (stepGrid WIDTH HEIGHT (stepGrid WIDTH HEIGHT (blinkerH x0 y0)))
        (blinkerH x0 y0)
      ∧ gridEq WIDTH HEIGHT
        (stepGrid WIDTH HEIGHT (stepGrid WIDTH HEIGHT (blinkerV x0 y0)))
        (blinkerV x0 y0)
      ∧ stepGrid WIDTH HEIGHT (blinkerH x0 y0) (x0 % WIDTH) (y0 % HEIGHT)
          ≠ blinkerH x0 y0 (x0 % WIDTH) (y0 % HEIGHT) := by
  have hW : 0 < WIDTH := by decide
  have hH : 0 < HEIGHT := by decide
  refine ⟨?_, ?_, ?_⟩
  · intro x hx y hy
    calc stepGrid WIDTH HEIGHT (stepGrid WIDTH HEIGHT (blinkerH x0 y0)) x y
        = stepCell WIDTH HEIGHT (blinkerV (x0 + 1) (y0 + 1999)) x y :=
          stepCell_congr WIDTH HEIGHT hW hH (step_blinkerH x0 y0) x hx y hy
      _ = blinkerH (x0 + 1 + 1999) (y0 + 1999 + 1) x y :=
          step_blinkerV (x0 + 1) (y0 + 1999) x hx y hy
      _ = blinkerH x0 y0 x y := blinkerH_shift x0 y0 x y
  · intro x hx y hy
    calc stepGrid WIDTH HEIGHT (stepGrid WIDTH HEIGHT (blinkerV x0 y0)) x y
        = stepCell WIDTH HEIGHT (blinkerH (x0 + 1999) (y0 + 1)) x y :=
          stepCell_congr WIDTH HEIGHT hW hH (step_blinkerV x0 y0) x hx y hy
      _ = blinkerV (x0 + 1999 + 1) (y0 + 1 + 1999) x y :=
          step_blinkerH (x0 + 1999) (y0 + 1) x hx y hy
      _ = blinkerV x0 y0 x y := blinkerV_shift x0 y0 x y
  · have hx0 : x0 % WIDTH < WIDTH := Nat.mod_lt _ hW
    have hy0 : y0 % HEIGHT < HEIGHT := Nat.mod_lt _ hH
    rw [step_blinkerH x0 y0 (x0 % WIDTH) hx0 (y0 % HEIGHT) hy0]
    simp only [blinkerH, blinkerV, WIDTH, HEIGHT, ALIVE, DEAD]
    split_ifs <;> omega
